import Mathlib

/-!
Shallow embedding of `saleor/dashboard/discount/forms.py`.

The module defines Django model forms for sales and vouchers.  We embed the
observable logic:

* `SaleForm.clean` — cross-field validation of the sale discount.
* `VoucherForm._generate_code` — rejection-sampling code generation from a
  stream of uuid4 draws.
* `country_choices` — distinct country codes of `ShippingMethodCountry`
  mapped through the static `COUNTRY_CODE_CHOICES` table (a Python dict).
* The four voucher specialisation forms' `save` hooks.  Django's
  `ModelForm` binds the submitted cleaned data onto the instance during
  validation (`_post_clean` / `construct_instance`), so by the time the
  overridden `save` runs the instance already carries the submitted field
  values; `super().save(commit)` merely persists the instance.  Each
  embedded `save` therefore first applies the form's field binding and then
  the hook's mutations, returning the instance that gets persisted.

Dictionary lookups that can raise `KeyError` are embedded in `Except`.
-/

/-- Discount type of a `Sale` (`Sale.FIXED` / `Sale.PERCENTAGE`). -/
inductive SaleType where
  | fixed
  | percentage
  deriving DecidableEq, Repr

/-- Discount value type of a `Voucher`
(`Voucher.DISCOUNT_VALUE_FIXED` / `Voucher.DISCOUNT_VALUE_PERCENTAGE`). -/
inductive DiscountValueType where
  | fixed
  | percentage
  deriving DecidableEq, Repr

/-- The `cleaned_data` dict of a `SaleForm` as far as `clean` reads it:
each key may be absent (e.g. when field-level validation of that field
already failed), which we model with `Option`. -/
structure SaleCleanedData where
  type : Option SaleType
  value : Option Int
  deriving DecidableEq, Repr

/-- The field-level error `SaleForm.clean` attaches:
`add_error('value', 'Sale cannot exceed 100%')`. -/
def saleValueError : String × String := ("value", "Sale cannot exceed 100%")

/-- Embedding of `SaleForm.clean`.  The Python body reads
`cleaned_data['type']` and `cleaned_data['value']` unconditionally (a
missing key raises `KeyError`), then attaches a field error to `value`
when the type is percentage and the value exceeds 100.  The result is the
cleaned data together with the list of field errors added. -/
def SaleForm.clean (cd : SaleCleanedData) :
    Except String (SaleCleanedData × List (String × String)) :=
  match cd.type with
  | none => Except.error "KeyError"
  | some discount_type =>
    match cd.value with
    | none => Except.error "KeyError"
    | some value =>
      if discount_type = SaleType.percentage ∧ value > 100 then
        Except.ok (cd, [saleValueError])
      else
        Except.ok (cd, [])

/-- C1: a `SaleForm` whose cleaned data has `type = PERCENTAGE` and a
present numeric value attaches the `value` field error exactly when the
value exceeds 100; for values at most 100 validation passes with no
error. -/
theorem sale_clean_percentage_rule (cd : SaleCleanedData) (v : Int)
    (ht : cd.type = some SaleType.percentage) (hv : cd.value = some v) :
    (v > 100 → SaleForm.clean cd = Except.ok (cd, [saleValueError])) ∧
    (v ≤ 100 → SaleForm.clean cd = Except.ok (cd, [])) := by
  refine ⟨fun h => ?_, fun h => ?_⟩ <;> simp only [SaleForm.clean, ht, hv]
  · rw [if_pos ⟨trivial, h⟩]
  · rw [if_neg (fun hc => absurd hc.2 (by omega))]

/-- Witness for C1 at concrete inputs: value 150 triggers the error,
value 100 does not. -/
theorem sale_clean_percentage_rule_witness :
    ((⟨some SaleType.percentage, some 150⟩ : SaleCleanedData).type
        = some SaleType.percentage ∧
      SaleForm.clean ⟨some SaleType.percentage, some 150⟩
        = Except.ok (⟨some SaleType.percentage, some 150⟩, [saleValueError])) ∧
    SaleForm.clean ⟨some SaleType.percentage, some 100⟩
        = Except.ok (⟨some SaleType.percentage, some 100⟩, []) :=
  ⟨⟨rfl, (sale_clean_percentage_rule ⟨some SaleType.percentage, some 150⟩ 150
      rfl rfl).1 (by decide)⟩,
    (sale_clean_percentage_rule ⟨some SaleType.percentage, some 100⟩ 100
      rfl rfl).2 (by decide)⟩

/-- C9: `SaleForm.clean` reads `cleaned_data['type']` and
`cleaned_data['value']` unconditionally, so there is an input with
`value` absent from the cleaned data (as after a failed field-level
validation of `value`) on which `clean` raises `KeyError` instead of
returning cleaned data with a field error. -/
theorem sale_clean_keyerror :
    ∃ cd : SaleCleanedData, cd.value = none ∧
      SaleForm.clean cd = Except.error "KeyError" :=
  ⟨⟨some SaleType.percentage, none⟩, rfl, rfl⟩

/-- The characters that can appear in the canonical string form of a
uuid4: lowercase hexadecimal digits and the dash separator. -/
def hexChars : List Char := "0123456789abcdef".toList

/-- A character is uppercase alphanumeric: a decimal digit or an
uppercase ASCII letter. -/
def isUppercaseAlnum (c : Char) : Bool :=
  c.isDigit || ('A' ≤ c && c ≤ 'Z')

/-- A character list is the canonical string of a uuid4:
32 hexadecimal digits once the dashes are removed, every character a
lowercase hex digit or a dash. -/
def isValidUuid4 (u : List Char) : Prop :=
  (u.filter (fun c => c ≠ '-')).length = 32 ∧
  ∀ c ∈ u, c ∈ hexChars ∨ c = '-'

instance (u : List Char) : Decidable (isValidUuid4 u) := by
  unfold isValidUuid4; infer_instance

/-- Embedding of `str(uuid.uuid4()).replace('-', '').upper()[:12]`:
drop the dashes, uppercase, keep the first 12 characters. -/
def formatUuidCode (u : List Char) : List Char :=
  ((u.filter (fun c => c ≠ '-')).map Char.toUpper).take 12

/-- Embedding of `VoucherForm._generate_code`.  The Python loop draws
uuid4 values until the formatted code collides with no stored voucher
code; we pass the stream of uuid4 draws explicitly and return `none`
when the (finite) stream is exhausted.  `existing` is the set of codes
`Voucher.objects` holds at generation time. -/
def VoucherForm._generate_code (existing : List (List Char)) :
    List (List Char) → Option (List Char)
  | [] => none
  | u :: rest =>
    let code := formatUuidCode u
    if code ∈ existing then VoucherForm._generate_code existing rest
    else some code

theorem hex_toUpper_uppercaseAlnum :
    ∀ c ∈ hexChars, isUppercaseAlnum (Char.toUpper c) = true := by decide

/-- C2: every code `_generate_code` returns from a stream of genuine
uuid4 draws is exactly 12 characters long, consists only of uppercase
alphanumeric characters, and differs from every voucher code existing in
the store at generation time. -/
theorem generate_code_spec (existing stream : List (List Char))
    (code : List Char) (hval : ∀ u ∈ stream, isValidUuid4 u)
    (hgen : VoucherForm._generate_code existing stream = some code) :
    code.length = 12 ∧ (∀ c ∈ code, isUppercaseAlnum c = true) ∧
    code ∉ existing := by
  induction stream with
  | nil => simp [VoucherForm._generate_code] at hgen
  | cons u rest ih =>
    rw [VoucherForm._generate_code] at hgen
    by_cases hc : formatUuidCode u ∈ existing
    · rw [if_pos hc] at hgen
      exact ih (fun x hx => hval x (List.mem_cons_of_mem u hx)) hgen
    · rw [if_neg hc] at hgen
      obtain rfl : formatUuidCode u = code := Option.some.inj hgen
      obtain ⟨h32, hchars⟩ := hval u (List.mem_cons_self u rest)
      refine ⟨?_, fun c hcmem => ?_, hc⟩
      · unfold formatUuidCode
        rw [List.length_take, List.length_map, h32]
        decide
      · have hcmap := List.take_subset 12 _ hcmem
        obtain ⟨c', hc'mem, rfl⟩ := List.mem_map.mp hcmap
        have hne : c' ≠ '-' := of_decide_eq_true (List.mem_filter.mp hc'mem).2
        have : c' ∈ hexChars ∨ c' = '-' :=
          hchars c' (List.mem_of_mem_filter hc'mem)
        exact hex_toUpper_uppercaseAlnum c' (this.resolve_right hne)

/-- A concrete uuid4 draw used to witness C2. -/
def uuidSample : List Char := "123e4567-e89b-42d3-a456-426614174000".toList

/-- Witness for C2 at a concrete stream of one valid uuid4 draw and an
empty store of codes. -/
theorem generate_code_spec_witness :
    (∀ u ∈ [uuidSample], isValidUuid4 u) ∧
    (("123E4567E89B".toList).length = 12 ∧
      (∀ c ∈ "123E4567E89B".toList, isUppercaseAlnum c = true) ∧
      "123E4567E89B".toList ∉ ([] : List (List Char))) :=
  ⟨by decide, generate_code_spec [] [uuidSample] ("123E4567E89B".toList)
    (by decide) (by decide)⟩

/-- The `Voucher` model fields the specialisation forms touch.
`category` and `product` hold foreign-key ids, `limit` a price amount,
`apply_to` the country-code / apply-to-product choice string;
`discount_value_type` is set by the first-step `VoucherForm` and is not
a field of any specialisation form. -/
structure Voucher where
  discount_value_type : DiscountValueType
  category : Option Nat
  product : Option Nat
  limit : Option Int
  apply_to : Option String
  deriving DecidableEq, Repr

/-- How many of the four discriminated-union fields of a voucher are
non-null. -/
def Voucher.setCount (v : Voucher) : Nat :=
  (if v.category.isSome then 1 else 0) + (if v.product.isSome then 1 else 0) +
  (if v.limit.isSome then 1 else 0) + (if v.apply_to.isSome then 1 else 0)

/-- Submitted cleaned data of a `ShippingVoucherForm`
(fields `apply_to`, `limit`, both `required=False`). -/
structure ShippingVoucherData where
  apply_to : Option String
  limit : Option Int
  deriving DecidableEq, Repr

/-- Embedding of `ShippingVoucherForm.save`: Django has already bound
the submitted `apply_to` and `limit` onto the instance during
validation; the hook then sets `category = None` and `product = None`
before the instance is persisted. -/
def ShippingVoucherForm.save (v : Voucher) (d : ShippingVoucherData) :
    Voucher :=
  let bound := { v with apply_to := d.apply_to, limit := d.limit }
  { bound with category := none, product := none }

/-- Submitted cleaned data of a `ValueVoucherForm`
(single field `limit`, `required=False`). -/
structure ValueVoucherData where
  limit : Option Int
  deriving DecidableEq, Repr

/-- Embedding of `ValueVoucherForm.save`: after binding the submitted
`limit`, the hook sets `category = None`, `apply_to = None` and
`product = None`. -/
def ValueVoucherForm.save (v : Voucher) (d : ValueVoucherData) : Voucher :=
  let bound := { v with limit := d.limit }
  { bound with category := none, apply_to := none, product := none }

/-- Embedding of `CommonVoucherForm.save` applied to the already-bound
instance: sets `category = None` and `limit = None`, and additionally
`apply_to = None` when the instance's discount value type is
percentage. -/
def CommonVoucherForm.save (bound : Voucher) : Voucher :=
  let v1 := { bound with category := none, limit := none }
  if v1.discount_value_type = DiscountValueType.percentage then
    { v1 with apply_to := none }
  else v1

/-- Submitted cleaned data of a `ProductVoucherForm`
(`product` is `required=True`, `apply_to` is `required=False`). -/
structure ProductVoucherData where
  product : Nat
  apply_to : Option String
  deriving DecidableEq, Repr

/-- Embedding of `ProductVoucherForm.save`: bind the submitted
`product` and `apply_to`, then run `CommonVoucherForm.save`. -/
def ProductVoucherForm.save (v : Voucher) (d : ProductVoucherData) :
    Voucher :=
  CommonVoucherForm.save
    { v with product := some d.product, apply_to := d.apply_to }

/-- Submitted cleaned data of a `CategoryVoucherForm` (`category` is
made `required=True` in `__init__`, `apply_to` is `required=False`). -/
structure CategoryVoucherData where
  category : Nat
  apply_to : Option String
  deriving DecidableEq, Repr

/-- Embedding of `CategoryVoucherForm.save`: bind the submitted
`category` and `apply_to`, then run the inherited
`CommonVoucherForm.save`. -/
def CategoryVoucherForm.save (v : Voucher) (d : CategoryVoucherData) :
    Voucher :=
  CommonVoucherForm.save
    { v with category := some d.category, apply_to := d.apply_to }

/-- A concrete voucher instance used in counterexamples. -/
def voucherSample : Voucher :=
  ⟨DiscountValueType.fixed, none, none, none, none⟩

/-- C3 counterexample: saving a `ShippingVoucherForm` that submits both
a country and a minimum-order limit leaves two of the four fields
non-null, so the saved instance does not have at most one of
`{category, product, limit, apply_to}` set. -/
theorem voucher_exclusivity_counterexample :
    ¬ ((ShippingVoucherForm.save voucherSample
        ⟨some "PL", some 10⟩).setCount ≤ 1) := by decide

/-- C3 amended: after saving any of the four voucher specialisation
forms, at most two of the instance's fields
`{category, product, limit, apply_to}` are non-null (a shipping voucher
may keep both `limit` and `apply_to`; a product or category voucher may
keep `apply_to` alongside its own selector). -/
theorem voucher_save_at_most_two (v : Voucher) (ds : ShippingVoucherData)
    (dv : ValueVoucherData) (dp : ProductVoucherData)
    (dc : CategoryVoucherData) :
    (ShippingVoucherForm.save v ds).setCount ≤ 2 ∧
    (ValueVoucherForm.save v dv).setCount ≤ 2 ∧
    (ProductVoucherForm.save v dp).setCount ≤ 2 ∧
    (CategoryVoucherForm.save v dc).setCount ≤ 2 := by
  unfold ShippingVoucherForm.save ValueVoucherForm.save
    ProductVoucherForm.save CategoryVoucherForm.save CommonVoucherForm.save
    Voucher.setCount
  rcases v with ⟨t, c, p, l, a⟩
  cases t <;> simp <;> split_ifs <;> simp

/-- C4: evaluation at the failing input.  `CommonVoucherForm.save`
nulls `category` unconditionally after Django has bound the submitted
data, so saving a `CategoryVoucherForm` discards the submitted category
(here id 7) instead of preserving it, while a `ProductVoucherForm` does
preserve its submitted product. -/
theorem category_save_drops_category :
    (CategoryVoucherForm.save voucherSample ⟨7, none⟩).category = none ∧
    (ProductVoucherForm.save voucherSample ⟨5, none⟩).product = some 5 := by
  decide

/-- C5: saving a `ShippingVoucherForm` always results in
`category = None` and `product = None`. -/
theorem shipping_save_nulls (v : Voucher) (d : ShippingVoucherData) :
    (ShippingVoucherForm.save v d).category = none ∧
    (ShippingVoucherForm.save v d).product = none :=
  ⟨rfl, rfl⟩

/-- C6: saving a `ValueVoucherForm` always results in
`category = None`, `apply_to = None` and `product = None`. -/
theorem value_save_nulls (v : Voucher) (d : ValueVoucherData) :
    (ValueVoucherForm.save v d).category = none ∧
    (ValueVoucherForm.save v d).apply_to = none ∧
    (ValueVoucherForm.save v d).product = none :=
  ⟨rfl, rfl, rfl⟩

/-- C7: for both `CommonVoucherForm` subclasses, saving with a
percentage discount value type results in `apply_to = None`, and with a
non-percentage one the submitted `apply_to` is preserved. -/
theorem common_save_apply_to_rule (v : Voucher) (dp : ProductVoucherData)
    (dc : CategoryVoucherData) :
    (v.discount_value_type = DiscountValueType.percentage →
      (ProductVoucherForm.save v dp).apply_to = none ∧
      (CategoryVoucherForm.save v dc).apply_to = none) ∧
    (v.discount_value_type ≠ DiscountValueType.percentage →
      (ProductVoucherForm.save v dp).apply_to = dp.apply_to ∧
      (CategoryVoucherForm.save v dc).apply_to = dc.apply_to) := by
  unfold ProductVoucherForm.save CategoryVoucherForm.save
    CommonVoucherForm.save
  constructor <;> intro h <;> simp [h]

/-- A percentage-discount voucher instance used in witnesses. -/
def percentVoucherSample : Voucher :=
  ⟨DiscountValueType.percentage, none, none, none, none⟩

/-- Witness for C7 at concrete instances: a percentage voucher loses
the submitted country, a fixed one keeps it. -/
theorem common_save_apply_to_rule_witness :
    (percentVoucherSample.discount_value_type
        = DiscountValueType.percentage ∧
      (ProductVoucherForm.save percentVoucherSample
          ⟨5, some "PL"⟩).apply_to = none ∧
      (CategoryVoucherForm.save percentVoucherSample
          ⟨7, some "PL"⟩).apply_to = none) ∧
    ((ProductVoucherForm.save voucherSample ⟨5, some "PL"⟩).apply_to
        = some "PL" ∧
      (CategoryVoucherForm.save voucherSample ⟨7, some "DE"⟩).apply_to
        = some "DE") :=
  ⟨⟨rfl, (common_save_apply_to_rule percentVoucherSample
      ⟨5, some "PL"⟩ ⟨7, some "PL"⟩).1 rfl⟩,
    (common_save_apply_to_rule voucherSample
      ⟨5, some "PL"⟩ ⟨7, some "DE"⟩).2 (by decide)⟩

/-- Lookup in a dict built as Python's `dict(pairs)`: for repeated keys
the last pair wins; a missing key has no value (`KeyError` on access). -/
def pyDictGet (pairs : List (String × String)) (k : String) :
    Option String :=
  (pairs.reverse.find? (fun p => p.1 == k)).map Prod.snd

/-- Lookup of every code through the dict, left to right, as the list
comprehension in `country_choices` does: the first code missing from the
dict raises `KeyError`. -/
def lookupAllCountries (choices : List (String × String)) :
    List String → Except String (List (String × String))
  | [] => Except.ok []
  | c :: cs =>
    match pyDictGet choices c, lookupAllCountries choices cs with
    | some name, Except.ok rest => Except.ok ((c, name) :: rest)
    | some _, Except.error e => Except.error e
    | none, _ => Except.error "KeyError"

/-- Embedding of `country_choices`.  `shippingCodes` is the
`country_code` column of `ShippingMethodCountry`; `.distinct()` keeps
each code once; `choices` is the static `COUNTRY_CODE_CHOICES` table,
turned into a dict and used to label each code. -/
def country_choices (shippingCodes : List String)
    (choices : List (String × String)) :
    Except String (List (String × String)) :=
  lookupAllCountries choices shippingCodes.dedup

theorem lookupAllCountries_ok (choices : List (String × String)) :
    ∀ (l : List String) (pairs : List (String × String)),
      lookupAllCountries choices l = Except.ok pairs →
      pairs.map Prod.fst = l ∧
      ∀ p ∈ pairs, pyDictGet choices p.1 = some p.2 := by
  intro l
  induction l with
  | nil =>
    intro pairs h
    rw [lookupAllCountries] at h
    obtain rfl : ([] : List (String × String)) = pairs := Except.ok.inj h
    simp
  | cons c cs ih =>
    intro pairs h
    rw [lookupAllCountries] at h
    rcases hd : pyDictGet choices c with _ | name <;> rw [hd] at h
    · exact absurd h (by simp)
    · rcases hrest : lookupAllCountries choices cs with e | rest <;>
        rw [hrest] at h
      · exact absurd h (by simp)
      · obtain rfl : (c, name) :: rest = pairs := Except.ok.inj h
        obtain ⟨hmap, hall⟩ := ih rest hrest
        refine ⟨by simp [hmap], fun p hp => ?_⟩
        rcases List.mem_cons.mp hp with rfl | hp'
        · exact hd
        · exact hall p hp'

theorem lookupAllCountries_missing (choices : List (String × String)) :
    ∀ (l : List String) (c : String), c ∈ l →
      pyDictGet choices c = none →
      lookupAllCountries choices l = Except.error "KeyError" := by
  intro l
  induction l with
  | nil => intro c hc; exact absurd hc (List.not_mem_nil c)
  | cons a cs ih =>
    intro c hc hnone
    rw [lookupAllCountries]
    rcases List.mem_cons.mp hc with rfl | hc'
    · rw [hnone]
    · rcases hd : pyDictGet choices a with _ | name
      · rfl
      · rw [ih c hc' hnone]

theorem lookupAllCountries_total (choices : List (String × String)) :
    ∀ l : List String, (∀ c ∈ l, (pyDictGet choices c).isSome) →
      ∃ pairs, lookupAllCountries choices l = Except.ok pairs := by
  intro l
  induction l with
  | nil => intro _; exact ⟨[], rfl⟩
  | cons a cs ih =>
    intro hall
    obtain ⟨name, hname⟩ :=
      Option.isSome_iff_exists.mp (hall a (List.mem_cons_self a cs))
    obtain ⟨rest, hrest⟩ :=
      ih (fun c hc => hall c (List.mem_cons_of_mem a hc))
    exact ⟨(a, name) :: rest, by rw [lookupAllCountries, hname, hrest]⟩

/-- C8: whenever `country_choices` returns a list of pairs, every code
in it occurs in the `ShippingMethodCountry` column, each distinct code
occurs exactly once (the first components have no duplicates and every
stored code appears), and each code is labelled with its value in the
static `COUNTRY_CODE_CHOICES` dict. -/
theorem country_choices_spec (shippingCodes : List String)
    (choices pairs : List (String × String))
    (h : country_choices shippingCodes choices = Except.ok pairs) :
    (∀ p ∈ pairs, p.1 ∈ shippingCodes ∧
      pyDictGet choices p.1 = some p.2) ∧
    (pairs.map Prod.fst).Nodup ∧
    ∀ c ∈ shippingCodes, c ∈ pairs.map Prod.fst := by
  obtain ⟨hmap, hall⟩ :=
    lookupAllCountries_ok choices shippingCodes.dedup pairs h
  refine ⟨fun p hp => ?_, ?_, fun c hc => ?_⟩
  · refine ⟨?_, hall p hp⟩
    have : p.1 ∈ pairs.map Prod.fst := List.mem_map_of_mem Prod.fst hp
    rw [hmap] at this
    exact List.mem_dedup.mp this
  · rw [hmap]; exact shippingCodes.nodup_dedup
  · rw [hmap]; exact List.mem_dedup.mpr hc

/-- Witness for C8 at a concrete column with a duplicate code and a
concrete choices table. -/
theorem country_choices_spec_witness :
    country_choices ["PL", "DE", "PL"] [("PL", "Poland"), ("DE", "Germany")]
        = Except.ok [("DE", "Germany"), ("PL", "Poland")] ∧
    ((∀ p ∈ [("DE", "Germany"), ("PL", "Poland")],
        p.1 ∈ ["PL", "DE", "PL"] ∧
        pyDictGet [("PL", "Poland"), ("DE", "Germany")] p.1 = some p.2) ∧
      ([("DE", "Germany"), ("PL", "Poland")].map Prod.fst).Nodup ∧
      ∀ c ∈ ["PL", "DE", "PL"],
        c ∈ [("DE", "Germany"), ("PL", "Poland")].map Prod.fst) :=
  ⟨rfl, country_choices_spec ["PL", "DE", "PL"]
    [("PL", "Poland"), ("DE", "Germany")]
    [("DE", "Germany"), ("PL", "Poland")] rfl⟩

/-- C10: `country_choices` is total exactly under the precondition that
every stored country code is a key of `COUNTRY_CODE_CHOICES`: when every
distinct code has an entry the call returns a value, and any database
state holding a code outside the table makes it raise `KeyError`. -/
theorem country_choices_total_iff (shippingCodes : List String)
    (choices : List (String × String)) :
    ((∀ c ∈ shippingCodes, (pyDictGet choices c).isSome) →
      ∃ pairs, country_choices shippingCodes choices = Except.ok pairs) ∧
    (∀ c ∈ shippingCodes, pyDictGet choices c = none →
      country_choices shippingCodes choices = Except.error "KeyError") := by
  constructor
  · intro hall
    exact lookupAllCountries_total choices shippingCodes.dedup
      (fun c hc => hall c (List.mem_dedup.mp hc))
  · intro c hc hnone
    exact lookupAllCountries_missing choices shippingCodes.dedup c
      (List.mem_dedup.mpr hc) hnone

/-- Witness for C10: with the table `{PL, DE}`, a database whose codes
are all known succeeds, and one holding the unknown code `XX` raises
`KeyError`. -/
theorem country_choices_total_iff_witness :
    (∃ pairs, country_choices ["PL"] [("PL", "Poland"), ("DE", "Germany")]
        = Except.ok pairs) ∧
    country_choices ["PL", "XX"] [("PL", "Poland"), ("DE", "Germany")]
        = Except.error "KeyError" :=
  ⟨(country_choices_total_iff ["PL"]
      [("PL", "Poland"), ("DE", "Germany")]).1 (by decide),
    (country_choices_total_iff ["PL", "XX"]
      [("PL", "Poland"), ("DE", "Germany")]).2 "XX" (by decide) rfl⟩
